import Mathlib

/-!
Verification of the DASAS admin dashboard's cluster coordination and
fault-tolerance operations (`admin_app/api/clusters.py`,
`admin_app/api/analytics.py`, `admin_app/api/devices.py`,
`admin_app/db/database.py`) against their natural-language specification.

The SQLite store is embedded shallowly: each table is a list of rows in
insertion (rowid) order, `INSERT OR REPLACE` removes any row with the same
primary key and appends the new row at the end, `UPDATE ... WHERE id = ?`
rewrites matching rows in place, and `DELETE ... WHERE p` filters rows out.
Wall-clock instants (`datetime.now()`, SQLite `CURRENT_TIMESTAMP`, which has
one-second granularity) are modeled as `Nat` values threaded into each
operation as an explicit `now` argument; two operations running within the
same second receive the same `now`.  Fresh `uuid.uuid4()` strings are
likewise taken as explicit arguments.  JSON blobs (checkpoint data,
configuration) are opaque strings: `json.loads (json.dumps x) = x`, so the
dump/load round trip is the identity.  The `metadata` JSON column of the
events table carries no information any verified property depends on and is
not modeled.
-/

/-- A row of the `devices` table (only the columns the coordination layer
reads or writes: id, name, status, cluster_id, last_heartbeat). -/
structure DeviceRow where
  id : String
  name : String
  status : String
  clusterId : Option String
  lastHeartbeat : Option Nat
  deriving DecidableEq, Repr

/-- A row of the `clusters` table. -/
structure ClusterRow where
  id : String
  name : String
  status : String
  leaderId : Option String
  memberCount : Nat
  lastActivity : Option Nat
  configuration : String
  deriving DecidableEq, Repr

/-- A row of the `checkpoints` table.  `createdAt` is the SQLite
`CURRENT_TIMESTAMP` default (one-second granularity). -/
structure CheckpointRow where
  id : String
  clusterId : String
  checkpointData : String
  sequenceNumber : Nat
  createdAt : Nat
  deriving DecidableEq, Repr

/-- A row of the `device_metrics` table. -/
structure MetricRow where
  deviceId : String
  metricName : String
  metricValue : Int
  timestamp : Nat
  deriving DecidableEq, Repr

/-- A row of the `events` table (the JSON `metadata` column is not modeled). -/
structure EventRow where
  eventType : String
  sourceId : Option String
  severity : String
  message : String
  timestamp : Nat
  deriving DecidableEq, Repr

/-- The SQLite database of `DatabaseManager`: one list per table, in rowid
(insertion) order. -/
structure DB where
  devices : List DeviceRow
  clusters : List ClusterRow
  checkpoints : List CheckpointRow
  metrics : List MetricRow
  events : List EventRow
  deriving DecidableEq, Repr

/-- `DatabaseManager.get_device`: `SELECT * FROM devices WHERE id = ?`. -/
def DB.getDevice (s : DB) (did : String) : Option DeviceRow :=
  s.devices.find? (fun d => d.id == did)

/-- `DatabaseManager.get_all_devices`: optional status and cluster filters
(a `None` filter argument is skipped by the Python truthiness test), then
`LIMIT ? OFFSET ?`. -/
def DB.getAllDevices (s : DB) (status clusterId : Option String)
    (limit offset : Nat) : List DeviceRow :=
  let q1 : List DeviceRow := match status with
    | some st => s.devices.filter (fun d => d.status == st)
    | none => s.devices
  let q2 : List DeviceRow := match clusterId with
    | some cid => q1.filter (fun d => d.clusterId == some cid)
    | none => q1
  (q2.drop offset).take limit

/-- `DatabaseManager.update_device_status`: `UPDATE devices SET status = ?,
last_heartbeat = ?, ... WHERE id = ?`.  `clusterUpdate = some v` models the
caller passing `cluster_id=v` as a keyword argument (`v = none` is SQL NULL);
`clusterUpdate = none` models the keyword being absent. -/
def DB.updateDeviceStatus (s : DB) (did status : String)
    (clusterUpdate : Option (Option String)) (now : Nat) : DB :=
  { s with devices := s.devices.map (fun d =>
      if d.id == did then
        { d with status := status, lastHeartbeat := some now,
                 clusterId := clusterUpdate.getD d.clusterId }
      else d) }

/-- `DatabaseManager.get_cluster`: `SELECT * FROM clusters WHERE id = ?`. -/
def DB.getCluster (s : DB) (cid : String) : Option ClusterRow :=
  s.clusters.find? (fun c => c.id == cid)

/-- `DatabaseManager.add_cluster`: `INSERT OR REPLACE INTO clusters` —
any existing row with the same id is deleted and the new row is appended.
The keyword defaults of the Python function (`status="forming"`,
`leader_id=None`, `member_count=0`, `configuration={}`) are supplied
explicitly at each call site. -/
def DB.addCluster (s : DB) (cid name status : String)
    (leaderId : Option String) (memberCount : Nat) (configuration : String) :
    DB :=
  { s with clusters := s.clusters.filter (fun c => !(c.id == cid)) ++
      [⟨cid, name, status, leaderId, memberCount, none, configuration⟩] }

/-- `DatabaseManager.update_cluster_member_count`: `UPDATE clusters SET
member_count = ?, last_activity = ? WHERE id = ?`. -/
def DB.updateClusterMemberCount (s : DB) (cid : String) (count now : Nat) :
    DB :=
  { s with clusters := s.clusters.map (fun c =>
      if c.id == cid then { c with memberCount := count, lastActivity := some now }
      else c) }

/-- `DatabaseManager.save_checkpoint`: `INSERT OR REPLACE INTO checkpoints`;
`created_at` takes the `CURRENT_TIMESTAMP` default. -/
def DB.saveCheckpoint (s : DB) (ckid cid data : String) (seq now : Nat) : DB :=
  { s with checkpoints := s.checkpoints.filter (fun c => !(c.id == ckid)) ++
      [⟨ckid, cid, data, seq, now⟩] }

/-- Stable insertion step for `ORDER BY created_at DESC`: rows already in the
list whose `created_at` is greater than or equal stay in front of the new
row.  Among rows with equal `created_at` (SQL leaves their relative order
unspecified) this model keeps rowid (insertion) order, one of the orders
SQLite may produce. -/
def insertByTimeDesc (c : CheckpointRow) :
    List CheckpointRow → List CheckpointRow
  | [] => [c]
  | x :: xs =>
    if c.createdAt ≤ x.createdAt then x :: insertByTimeDesc c xs
    else c :: x :: xs

/-- Sort checkpoint rows by `created_at` descending (stable, see
`insertByTimeDesc`). -/
def sortByTimeDesc (l : List CheckpointRow) : List CheckpointRow :=
  l.foldl (fun acc c => insertByTimeDesc c acc) []

/-- `DatabaseManager.get_checkpoint_history`: optional cluster filter, then
`ORDER BY created_at DESC LIMIT ?`.  Note the ordering key is `created_at`,
not `sequence_number`. -/
def DB.getCheckpointHistory (s : DB) (clusterId : Option String)
    (limit : Nat) : List CheckpointRow :=
  let q := match clusterId with
    | some cid => s.checkpoints.filter (fun c => c.clusterId == cid)
    | none => s.checkpoints
  (sortByTimeDesc q).take limit

/-- `DatabaseManager.log_event`: `INSERT INTO events ...` (autoincrement
rowid, `CURRENT_TIMESTAMP` default). -/
def DB.logEvent (s : DB) (eventType : String) (sourceId : Option String)
    (severity message : String) (now : Nat) : DB :=
  { s with events := s.events ++ [⟨eventType, sourceId, severity, message, now⟩] }

/-- `DatabaseManager.cleanup_old_data`: deletes `device_metrics` and `events`
rows with `timestamp < cutoff` where `cutoff = datetime.now().isoformat()` —
the `days` argument is never used in the cutoff computation. -/
def cleanup_old_data (s : DB) (days : Nat) (now : Nat) : DB :=
  { s with
    metrics := s.metrics.filter (fun m => !decide (m.timestamp < now)),
    events := s.events.filter (fun e => !decide (e.timestamp < now)) }

/-- Generic `{"success": ..., "message": ...}` result dictionary returned by
the cluster-manager membership and resource operations. -/
structure OpResult where
  success : Bool
  message : String
  deriving DecidableEq, Repr

/-- `ClusterManager.get_members`: `device_manager.get_all_devices` filtered
by cluster with the default `limit=100`. -/
def get_members (s : DB) (cid : String) : List DeviceRow :=
  s.getAllDevices none (some cid) 100 0

/-- Result of `ClusterManager.start_election`: `failure msg` models the
`{"success": False, "message": msg}` dictionary, `pyError` the unhandled
`TypeError` raised when the cluster row is absent (`cluster["name"]` on
`None`), and `elected` the success dictionary carrying the leader's id and
name. -/
inductive ElectionOutcome
  | failure (message : String)
  | pyError
  | elected (leaderId leaderName : String)
  deriving DecidableEq, Repr

/-- Python `max(members, key=lambda m: m.get("id", ""))`: fold keeping the
current element unless a strictly greater key appears, so the first element
with the maximal id wins.  Python string comparison is lexicographic by code
point, modeled as the lexicographic order on the string's character list. -/
def maxById (d : DeviceRow) : List DeviceRow → DeviceRow
  | [] => d
  | x :: xs => maxById (if d.id.toList < x.id.toList then x else d) xs

/-- `ClusterManager.start_election`: fails on an empty member list, otherwise
picks the member with the maximal device id, rewrites the cluster row
(`INSERT OR REPLACE`, which resets `member_count` to the keyword default 0)
with status `active` and the new leader, and logs a `leader_elected` event. -/
def start_election (s : DB) (cid : String) (now : Nat) :
    ElectionOutcome × DB :=
  match get_members s cid with
  | [] => (ElectionOutcome.failure "No members in cluster", s)
  | m :: ms =>
    let leader := maxById m ms
    match s.getCluster cid with
    | none => (ElectionOutcome.pyError, s)
    | some cluster =>
      let s1 := s.addCluster cid cluster.name "active" (some leader.id) 0
        cluster.configuration
      let s2 := s1.logEvent "leader_elected" (some cid) "info"
        ("Leader elected: " ++ leader.name) now
      (ElectionOutcome.elected leader.id leader.name, s2)

/-- `ClusterManager.add_member`: validates cluster, device, and current
membership, then updates the device row (status `online`, new cluster),
recounts the members of the cluster (which now already include the added
device), stores that count plus one as the cached `member_count`, and logs a
`member_added` event. -/
def add_member (s : DB) (cid did : String) (now : Nat) : OpResult × DB :=
  match s.getCluster cid with
  | none => (⟨false, "Cluster not found"⟩, s)
  | some _cluster =>
    match s.getDevice did with
    | none => (⟨false, "Device not found"⟩, s)
    | some device =>
      if device.clusterId == some cid then
        (⟨false, "Device already in cluster"⟩, s)
      else
        let s1 := s.updateDeviceStatus did "online" (some (some cid)) now
        let members := get_members s1 cid
        let s2 := s1.updateClusterMemberCount cid (members.length + 1) now
        let s3 := s2.logEvent "member_added" (some cid) "info"
          ("Device " ++ device.name ++ " added to cluster") now
        (⟨true, "Device added to cluster"⟩, s3)

/-- `ClusterManager.remove_member`: validates membership, clears the device's
cluster, recounts the members (which now exclude the removed device), stores
`max(0, count - 1)` (Nat subtraction) as the cached `member_count`, and
re-runs the election when the removed device was the leader. -/
def remove_member (s : DB) (cid did : String) (now : Nat) : OpResult × DB :=
  match s.getDevice did with
  | none => (⟨false, "Device not in cluster"⟩, s)
  | some device =>
    if !(device.clusterId == some cid) then
      (⟨false, "Device not in cluster"⟩, s)
    else
      let s1 := s.updateDeviceStatus did "online" (some none) now
      let members := get_members s1 cid
      let s2 := s1.updateClusterMemberCount cid (members.length - 1) now
      let s3 := match s2.getCluster cid with
        | some c =>
          if c.leaderId == some did then (start_election s2 cid now).2 else s2
        | none => s2
      (⟨true, "Device removed from cluster"⟩, s3)

/-- Result dictionary of `ClusterManager.request_resource`. -/
structure ResourceRequestResult where
  success : Bool
  requestId : String
  status : String
  algorithm : String
  deriving DecidableEq, Repr

/-- `ClusterManager.request_resource`: logs a `resource_request` event and
returns `{"success": True, "request_id": uuid4(), "status": "pending",
"algorithm": "suzuki_kasami"}`.  No token state of any kind exists in the
database or the manager, and `device_id` is only echoed into the log. -/
def request_resource (s : DB) (cid did resource reqId : String) (now : Nat) :
    ResourceRequestResult × DB :=
  let s1 := s.logEvent "resource_request" (some cid) "info"
    ("Resource request: " ++ resource) now
  (⟨true, reqId, "pending", "suzuki_kasami"⟩, s1)

/-- `ClusterManager.release_resource`: logs a `resource_released` event and
returns `{"success": True, "message": "Resource released"}` unconditionally;
no holder check of any kind is performed. -/
def release_resource (s : DB) (cid did resource : String) (now : Nat) :
    OpResult × DB :=
  let s1 := s.logEvent "resource_released" (some cid) "info"
    ("Resource released: " ++ resource) now
  (⟨true, "Resource released"⟩, s1)

/-- `ClusterManager.update_vector_clock`: logs a `vector_clock_update` event
and returns the dictionary `{"clock_id": uuid4(), "timestamp":
datetime.now().isoformat(), "device_id": device_id}`, modeled as an
association list; `clockId` and `tsIso` stand for the fresh uuid and the
iso-format timestamp string. -/
def update_vector_clock (s : DB) (cid did event clockId tsIso : String)
    (now : Nat) : List (String × String) × DB :=
  let s1 := s.logEvent "vector_clock_update" (some cid) "info"
    "Vector clock updated" now
  ([("clock_id", clockId), ("timestamp", tsIso), ("device_id", did)], s1)

/-- Result dictionary of `AnalyticsManager.create_checkpoint`. -/
structure CheckpointResult where
  checkpointId : String
  sequenceNumber : Nat
  status : String
  deriving DecidableEq, Repr

/-- The sequence-number computation of `AnalyticsManager.create_checkpoint`:
`(history[0]["sequence_number"] if history else 0) + 1` where `history =
get_checkpoint_history(cluster_id, limit=1)` — the single checkpoint row
with the greatest `created_at`, not the greatest `sequence_number`. -/
def nextSeq (s : DB) (cid : String) : Nat :=
  (match (s.getCheckpointHistory (some cid) 1).head? with
    | some c => c.sequenceNumber
    | none => 0) + 1

/-- `AnalyticsManager.create_checkpoint`: derives the next sequence number
from the most recently created checkpoint (`nextSeq`), saves the checkpoint
and logs a `checkpoint_created` event. -/
def create_checkpoint (s : DB) (cid ckid data : String) (now : Nat) :
    CheckpointResult × DB :=
  let seq := nextSeq s cid
  let s1 := s.saveCheckpoint ckid cid data seq now
  let s2 := s1.logEvent "checkpoint_created" (some cid) "info"
    ("Checkpoint created: #" ++ toString seq) now
  (⟨ckid, seq, "success"⟩, s2)

/-- Result of `AnalyticsManager.restore_from_checkpoint`: `failure msg`
models the `{"success": False, "message": msg}` dictionary and `restored`
the success dictionary (whose `data` field is the parsed checkpoint blob). -/
inductive RestoreOutcome
  | failure (message : String)
  | restored (checkpointId : String) (sequenceNumber : Nat) (data : String)
  deriving DecidableEq, Repr

/-- `AnalyticsManager.restore_from_checkpoint`: with an explicit id the code
fetches `get_checkpoint_history(cluster_id, limit=1)` — only the single most
recently created checkpoint — and succeeds only when that row's id equals
the requested one; with no id it restores that same single row if any. -/
def restore_from_checkpoint (s : DB) (cid : String) (ckid : Option String)
    (now : Nat) : RestoreOutcome × DB :=
  match ckid with
  | some wanted =>
    match (s.getCheckpointHistory (some cid) 1).head? with
    | some c =>
      if c.id == wanted then
        let s1 := s.logEvent "checkpoint_restored" (some cid) "info"
          ("Restored from checkpoint: #" ++ toString c.sequenceNumber) now
        (RestoreOutcome.restored c.id c.sequenceNumber c.checkpointData, s1)
      else (RestoreOutcome.failure "Checkpoint not found", s)
    | none => (RestoreOutcome.failure "Checkpoint not found", s)
  | none =>
    match (s.getCheckpointHistory (some cid) 1).head? with
    | none => (RestoreOutcome.failure "No checkpoints available", s)
    | some c =>
      let s1 := s.logEvent "checkpoint_restored" (some cid) "info"
        ("Restored from checkpoint: #" ++ toString c.sequenceNumber) now
      (RestoreOutcome.restored c.id c.sequenceNumber c.checkpointData, s1)

/-- `AnalyticsManager.initiate_recovery`: logs a `recovery_initiated` event
and returns a fresh recovery id; no recovery state is stored anywhere. -/
def initiate_recovery (s : DB) (cid reason recoveryId : String) (now : Nat) :
    String × DB :=
  let s1 := s.logEvent "recovery_initiated" (some cid) "warning"
    ("Recovery initiated: " ++ reason) now
  (recoveryId, s1)

/-- Result dictionary of `AnalyticsManager.complete_recovery`. -/
structure RecoveryCompletion where
  recoveryId : String
  success : Bool
  deriving DecidableEq, Repr

/-- `AnalyticsManager.complete_recovery`: logs a `recovery_completed` event
(severity and message chosen from the `success` flag supplied to this call)
and returns the supplied outcome; no prior completion is consulted because
no recovery state exists. -/
def complete_recovery (s : DB) (recoveryId : String) (success : Bool)
    (now : Nat) : RecoveryCompletion × DB :=
  let s1 := s.logEvent "recovery_completed" (some recoveryId)
    (if success then "info" else "error")
    (if success then "Recovery succeeded" else "Recovery failed") now
  (⟨recoveryId, success⟩, s1)

/-- Checkpoint rows of one cluster, in rowid (insertion) order. -/
def cidCheckpoints (s : DB) (cid : String) : List CheckpointRow :=
  s.checkpoints.filter (fun c => c.clusterId == cid)

/-- Sequence numbers of one cluster's checkpoints, in rowid order. -/
def checkpointSeqs (s : DB) (cid : String) : List Nat :=
  (cidCheckpoints s cid).map CheckpointRow.sequenceNumber

/-- Run a series of successful `create_checkpoint` calls against one cluster;
each call supplies its fresh uuid, data blob and creation instant. -/
def runCheckpoints (cid : String) : DB → List (String × String × Nat) → DB
  | s, [] => s
  | s, (ckid, data, t) :: rest =>
    runCheckpoints cid (create_checkpoint s cid ckid data t).2 rest

/-- The list `[1, 2, ..., k]` of expected checkpoint sequence numbers. -/
def seqUpTo : Nat → List Nat
  | 0 => []
  | k + 1 => seqUpTo k ++ [k + 1]

/-- Fixture device assigned to cluster c1. -/
def devA : DeviceRow := ⟨"devA", "A", "online", some "c1", none⟩

/-- Fixture device assigned to cluster c1, with the greatest device id. -/
def devB : DeviceRow := ⟨"devB", "B", "online", some "c1", none⟩

/-- Fixture device not assigned to any cluster. -/
def devC : DeviceRow := ⟨"devC", "C", "online", none, none⟩

/-- Fixture cluster row for c1 (no leader, cached member count 1). -/
def c1row : ClusterRow := ⟨"c1", "Cluster One", "active", none, 1, none, "cfg"⟩

/-- Fixture database: cluster c1 with members devA and devB. -/
def dbC1 : DB := ⟨[devA, devB], [c1row], [], [], []⟩

/-- Fixture database with every table empty. -/
def emptyDB : DB := ⟨[], [], [], [], []⟩

/-- Fixture database: cluster c1 with member devA; devC is unassigned. -/
def dbC9 : DB := ⟨[devA, devC], [c1row], [], [], []⟩

/-- State after `add_member(c1, devC)` on `dbC9`. -/
def dbC9Add : DB := (add_member dbC9 "c1" "devC" 5).2

/-- State after `remove_member(c1, devC)` on `dbC9Add`. -/
def dbC9Rem : DB := (remove_member dbC9Add "c1" "devC" 6).2

/-- State after one checkpoint for c1, created at instant 5. -/
def ckHist1 : DB := (create_checkpoint emptyDB "c1" "ck1" "data1" 5).2

/-- State after a second checkpoint for c1, created at the later instant 6. -/
def ckHist2 : DB := (create_checkpoint ckHist1 "c1" "ck2" "data2" 6).2

/-- State after a second checkpoint for c1 created within the same second
(instant 5) as the first one. -/
def ckSame2 : DB := (create_checkpoint ckHist1 "c1" "ck2" "data2" 5).2

/-- State after a recovery for id r1 has been completed with outcome
`success = true`. -/
def recDB1 : DB := (complete_recovery emptyDB "r1" true 5).2

/-- Fixture database holding one device metric (instant 3) and one event
(instant 4), both in the past relative to instant 10. -/
def dbOld : DB :=
  ⟨[], [], [], [⟨"devA", "cpu_usage", 50, 3⟩],
   [⟨"cluster_created", some "c1", "info", "cluster created", 4⟩]⟩

/-- The winner picked by `maxById` is one of the candidates. -/
theorem maxById_mem (d : DeviceRow) (l : List DeviceRow) :
    maxById d l ∈ d :: l := by
  induction l generalizing d with
  | nil => simp [maxById]
  | cons x xs ih =>
    simp only [maxById]
    rcases List.mem_cons.mp (ih (if d.id.toList < x.id.toList then x else d))
      with h1 | h2
    · rw [h1]
      by_cases hx : d.id.toList < x.id.toList
      · rw [if_pos hx]
        exact List.mem_cons_of_mem _ (List.mem_cons_self _ _)
      · rw [if_neg hx]
        exact List.mem_cons_self _ _
    · exact List.mem_cons_of_mem _ (List.mem_cons_of_mem _ h2)

/-- Every candidate's id is at most the id of the winner picked by
`maxById` (ids compared as Python compares strings, lexicographically by
code point). -/
theorem maxById_le (d : DeviceRow) (l : List DeviceRow) :
    ∀ x ∈ d :: l, x.id.toList ≤ (maxById d l).id.toList := by
  induction l generalizing d with
  | nil =>
    intro x hx
    rcases List.mem_cons.mp hx with rfl | h
    · simp [maxById]
    · exact absurd h (List.not_mem_nil x)
  | cons y ys ih =>
    intro x hx
    simp only [maxById]
    have htop := ih (if d.id.toList < y.id.toList then y else d) _
      (List.mem_cons_self _ _)
    have hd : d.id.toList ≤ (if d.id.toList < y.id.toList then y else d).id.toList := by
      by_cases hcmp : d.id.toList < y.id.toList
      · rw [if_pos hcmp]; exact le_of_lt hcmp
      · rw [if_neg hcmp]
    have hy : y.id.toList ≤ (if d.id.toList < y.id.toList then y else d).id.toList := by
      by_cases hcmp : d.id.toList < y.id.toList
      · rw [if_pos hcmp]
      · rw [if_neg hcmp]; exact le_of_not_lt hcmp
    rcases List.mem_cons.mp hx with rfl | hx2
    · exact le_trans hd htop
    · rcases List.mem_cons.mp hx2 with rfl | hx3
      · exact le_trans hy htop
      · exact ih _ x (List.mem_cons_of_mem _ hx3)

/-- Every row returned by `get_members` is a device-table row assigned to
the queried cluster. -/
theorem get_members_clusterId (s : DB) (cid : String) :
    ∀ d ∈ get_members s cid, d ∈ s.devices ∧ d.clusterId = some cid := by
  intro d hd
  simp only [get_members, DB.getAllDevices, List.drop_zero] at hd
  have hd2 := List.mem_of_mem_take hd
  have hd3 := List.mem_filter.mp hd2
  refine ⟨hd3.1, ?_⟩
  simpa using hd3.2

/-- After an `INSERT OR REPLACE` of a row keyed by `cid`, that row is the
unique row of the table with id `cid`. -/
theorem filter_id_addCluster (l : List ClusterRow) (cid : String)
    (row : ClusterRow) (hrow : row.id = cid) :
    ((l.filter (fun c => !(c.id == cid)) ++ [row]).filter
      (fun r => r.id == cid)) = [row] := by
  rw [List.filter_append, List.filter_filter]
  have h1 : (l.filter fun a => (a.id == cid) && !(a.id == cid)) = [] := by
    apply List.filter_eq_nil_iff.mpr
    intro a _
    simp
  rw [h1]
  simp [hrow]

/-- Reduction of `start_election` on a non-empty member list when the
cluster row exists. -/
theorem start_election_eq_success (s : DB) (cid : String) (now : Nat)
    (m : DeviceRow) (ms : List DeviceRow) (hm : get_members s cid = m :: ms)
    (c : ClusterRow) (hc : s.getCluster cid = some c) :
    start_election s cid now =
      (ElectionOutcome.elected (maxById m ms).id (maxById m ms).name,
       (s.addCluster cid c.name "active" (some (maxById m ms).id) 0
          c.configuration).logEvent "leader_elected" (some cid) "info"
          ("Leader elected: " ++ (maxById m ms).name) now) := by
  unfold start_election
  rw [hm, hc]

/-- Claim C1: `start_election` on a cluster whose member list is empty fails
with the no-members error (`{"success": False, "message": "No members in
cluster"}`, the code's rendering of `NoMembersError`) and leaves the state
unchanged; on a cluster with at least one member (and an existing cluster
row) it succeeds, electing a leader that is a device of that cluster, and
afterwards the cluster's row is the unique row for that cluster id and
carries that leader id, so every member reading the store agrees on the same
leader. -/
theorem start_election_correct (s : DB) (cid : String) (now : Nat) :
    (get_members s cid = [] →
      start_election s cid now =
        (ElectionOutcome.failure "No members in cluster", s)) ∧
    (∀ c, s.getCluster cid = some c → get_members s cid ≠ [] →
      ∃ lid lname s2,
        start_election s cid now = (ElectionOutcome.elected lid lname, s2) ∧
        (∃ d ∈ s.devices, d.id = lid ∧ d.clusterId = some cid ∧
          d ∈ get_members s cid) ∧
        (s2.clusters.filter (fun r => r.id == cid)).map ClusterRow.leaderId
          = [some lid]) := by
  constructor
  · intro h
    unfold start_election
    rw [h]
  · intro c hc hne
    obtain ⟨m, ms, hm⟩ := List.exists_cons_of_ne_nil hne
    refine ⟨(maxById m ms).id, (maxById m ms).name, _,
      start_election_eq_success s cid now m ms hm c hc, ?_, ?_⟩
    · have hmem : maxById m ms ∈ get_members s cid := hm ▸ maxById_mem m ms
      obtain ⟨hdev, hcid⟩ := get_members_clusterId s cid _ hmem
      exact ⟨maxById m ms, hdev, rfl, hcid, hmem⟩
    · simp only [DB.logEvent, DB.addCluster]
      rw [filter_id_addCluster s.clusters cid
        ⟨cid, c.name, "active", some (maxById m ms).id, 0, none,
          c.configuration⟩ rfl]
      rfl

/-- Witness for C1: on the empty store the election fails with the
no-members message; on the two-member fixture cluster it elects a member as
unique leader. -/
theorem start_election_correct_witness :
    start_election emptyDB "c1" 9 =
      (ElectionOutcome.failure "No members in cluster", emptyDB) ∧
    (∃ lid lname s2,
      start_election dbC1 "c1" 9 = (ElectionOutcome.elected lid lname, s2) ∧
      (∃ d ∈ dbC1.devices, d.id = lid ∧ d.clusterId = some "c1" ∧
        d ∈ get_members dbC1 "c1") ∧
      (s2.clusters.filter (fun r => r.id == "c1")).map ClusterRow.leaderId
        = [some lid]) :=
  ⟨(start_election_correct emptyDB "c1" 9).1 rfl,
   (start_election_correct dbC1 "c1" 9).2 c1row (by decide) (by decide)⟩

/-- Claim C4, counterexample: in the two-member fixture cluster both
candidates have no logical clock state at all (none exists anywhere in the
model of the code), so under the claimed rule the unique lowest
`(logicalClock, deviceId)` candidacy belongs to devA, whose id is
lexicographically least; the code instead elects devB, the member with the
greatest id. -/
theorem start_election_lowest_tuple_cex :
    (start_election dbC1 "c1" 9).1 = ElectionOutcome.elected "devB" "B" ∧
    devA ∈ get_members dbC1 "c1" ∧
    devA.id.toList < "devB".toList ∧
    (start_election dbC1 "c1" 9).1 ≠ ElectionOutcome.elected devA.id devA.name := by
  decide

/-- Claim C4, amended: the elected leader is the first member whose device
id is lexicographically greatest (Python `max` by id); candidacy logical
clocks play no part, as none exist in the code. -/
theorem start_election_elects_max_id (s : DB) (cid : String) (now : Nat)
    (c : ClusterRow) (hc : s.getCluster cid = some c)
    (hne : get_members s cid ≠ []) :
    ∃ leader s2,
      start_election s cid now =
        (ElectionOutcome.elected leader.id leader.name, s2) ∧
      leader ∈ get_members s cid ∧
      ∀ d ∈ get_members s cid, d.id.toList ≤ leader.id.toList := by
  obtain ⟨m, ms, hm⟩ := List.exists_cons_of_ne_nil hne
  refine ⟨maxById m ms, _,
    start_election_eq_success s cid now m ms hm c hc, hm ▸ maxById_mem m ms, ?_⟩
  intro d hd
  exact maxById_le m ms d (hm ▸ hd)

/-- Witness for the amended C4 on the two-member fixture cluster. -/
theorem start_election_elects_max_id_witness :
    ∃ leader s2,
      start_election dbC1 "c1" 9 =
        (ElectionOutcome.elected leader.id leader.name, s2) ∧
      leader ∈ get_members dbC1 "c1" ∧
      ∀ d ∈ get_members dbC1 "c1", d.id.toList ≤ leader.id.toList :=
  start_election_elects_max_id dbC1 "c1" 9 c1row (by decide) (by decide)

/-- Claim C5, counterexample: on the empty database no token exists for
resource R (the code keeps no token state in any table at all), yet
`request_resource` does not grant immediately: it returns status `pending`,
and the only state change is the appended `resource_request` event — no
token is minted anywhere. -/
theorem request_resource_not_granted_cex :
    (request_resource emptyDB "c1" "devA" "R" "req1" 5).1.status = "pending" ∧
    (request_resource emptyDB "c1" "devA" "R" "req1" 5).1.status ≠ "granted" ∧
    (request_resource emptyDB "c1" "devA" "R" "req1" 5).2 =
      ⟨[], [], [], [],
       [⟨"resource_request", some "c1", "info", "Resource request: R", 5⟩]⟩ := by
  decide

/-- Claim C5, amended: every `request_resource` call, whatever the database
state, returns success with status `pending` and the fresh request id, and
its only effect is to append one `resource_request` event; no token state is
consulted or created. -/
theorem request_resource_always_pending (s : DB)
    (cid did resource reqId : String) (now : Nat) :
    (request_resource s cid did resource reqId now).1 =
      ⟨true, reqId, "pending", "suzuki_kasami"⟩ ∧
    (request_resource s cid did resource reqId now).2.devices = s.devices ∧
    (request_resource s cid did resource reqId now).2.clusters = s.clusters ∧
    (request_resource s cid did resource reqId now).2.checkpoints =
      s.checkpoints ∧
    (request_resource s cid did resource reqId now).2.metrics = s.metrics ∧
    (request_resource s cid did resource reqId now).2.events =
      s.events ++ [⟨"resource_request", some cid, "info",
        "Resource request: " ++ resource, now⟩] :=
  ⟨rfl, rfl, rfl, rfl, rfl, rfl⟩

/-- Claim C6, counterexample: on the empty database devA holds nothing (no
holder state exists anywhere in the code), yet `release_resource` succeeds
instead of failing with the not-holder error; its only effect is the
appended `resource_released` event. -/
theorem release_resource_non_holder_cex :
    (release_resource emptyDB "c1" "devA" "R" 5).1 =
      ⟨true, "Resource released"⟩ ∧
    (release_resource emptyDB "c1" "devA" "R" 5).2 =
      ⟨[], [], [], [],
       [⟨"resource_released", some "c1", "info", "Resource released: R", 5⟩]⟩ := by
  decide

/-- Claim C6, amended: every `release_resource` call succeeds with message
`Resource released` and appends one `resource_released` event, regardless of
any holdership; no holder check is performed and no NotHolderError exists in
the code. -/
theorem release_resource_always_succeeds (s : DB) (cid did resource : String)
    (now : Nat) :
    (release_resource s cid did resource now).1 =
      ⟨true, "Resource released"⟩ ∧
    (release_resource s cid did resource now).2.devices = s.devices ∧
    (release_resource s cid did resource now).2.clusters = s.clusters ∧
    (release_resource s cid did resource now).2.checkpoints = s.checkpoints ∧
    (release_resource s cid did resource now).2.metrics = s.metrics ∧
    (release_resource s cid did resource now).2.events =
      s.events ++ [⟨"resource_released", some cid, "info",
        "Resource released: " ++ resource, now⟩] :=
  ⟨rfl, rfl, rfl, rfl, rfl, rfl⟩

/-- Claim C7, counterexample: the value returned by `update_vector_clock`
for device devA is the fixed dictionary with keys `clock_id`, `timestamp`
and `device_id`; it contains no entry keyed by the issuing device (a copy of
a device-id-to-counter mapping with devA's counter incremented would have
to), and the state gains only a log event — no counter anywhere is
incremented, since the model of the code stores no vector clock at all. -/
theorem update_vector_clock_no_counters_cex :
    (update_vector_clock emptyDB "c1" "devA" "ev" "u1" "t1" 5).1.map
      Prod.fst = ["clock_id", "timestamp", "device_id"] ∧
    (update_vector_clock emptyDB "c1" "devA" "ev" "u1" "t1" 5).1.lookup
      "devA" = none ∧
    (update_vector_clock emptyDB "c1" "devA" "ev" "u1" "t1" 5).2 =
      ⟨[], [], [], [],
       [⟨"vector_clock_update", some "c1", "info", "Vector clock updated", 5⟩]⟩ := by
  decide

/-- Claim C7, amended: `update_vector_clock` maintains no per-device
counters; it returns the three-entry dictionary `clock_id` / `timestamp` /
`device_id` (a fresh uuid, an iso timestamp, and the issuing device id) and
its only effect is one appended `vector_clock_update` event. -/
theorem update_vector_clock_returns_ids_only (s : DB)
    (cid did event clockId tsIso : String) (now : Nat) :
    (update_vector_clock s cid did event clockId tsIso now).1 =
      [("clock_id", clockId), ("timestamp", tsIso), ("device_id", did)] ∧
    (update_vector_clock s cid did event clockId tsIso now).2.devices =
      s.devices ∧
    (update_vector_clock s cid did event clockId tsIso now).2.clusters =
      s.clusters ∧
    (update_vector_clock s cid did event clockId tsIso now).2.checkpoints =
      s.checkpoints ∧
    (update_vector_clock s cid did event clockId tsIso now).2.metrics =
      s.metrics ∧
    (update_vector_clock s cid did event clockId tsIso now).2.events =
      s.events ++ [⟨"vector_clock_update", some cid, "info",
        "Vector clock updated", now⟩] :=
  ⟨rfl, rfl, rfl, rfl, rfl, rfl⟩

/-- Claim C8, counterexample: recovery r1 is first completed with outcome
`true`; completing the same recovery id again with outcome `false` is not a
no-op — it appends a second `recovery_completed` event and returns the newly
supplied outcome `false`, not the original `true`. -/
theorem complete_recovery_not_idempotent_cex :
    (complete_recovery emptyDB "r1" true 5).1 = ⟨"r1", true⟩ ∧
    (complete_recovery recDB1 "r1" false 6).1 = ⟨"r1", false⟩ ∧
    (complete_recovery recDB1 "r1" false 6).1 ≠ ⟨"r1", true⟩ ∧
    (complete_recovery recDB1 "r1" false 6).2 ≠ recDB1 ∧
    (complete_recovery recDB1 "r1" false 6).2.events.length =
      recDB1.events.length + 1 := by
  decide

/-- Claim C8, amended: `complete_recovery` is not idempotent — every call,
including one naming an already-completed recovery id, appends a new
`recovery_completed` event and returns exactly the outcome supplied to that
call; no completion state is consulted because none is stored. -/
theorem complete_recovery_always_records (s : DB) (rid : String) (b : Bool)
    (now : Nat) :
    (complete_recovery s rid b now).1 = ⟨rid, b⟩ ∧
    (complete_recovery s rid b now).2.devices = s.devices ∧
    (complete_recovery s rid b now).2.clusters = s.clusters ∧
    (complete_recovery s rid b now).2.checkpoints = s.checkpoints ∧
    (complete_recovery s rid b now).2.metrics = s.metrics ∧
    (complete_recovery s rid b now).2.events =
      s.events ++ [⟨"recovery_completed", some rid,
        if b then "info" else "error",
        if b then "Recovery succeeded" else "Recovery failed", now⟩] :=
  ⟨rfl, rfl, rfl, rfl, rfl, rfl⟩

/-- Claim C9: evaluation of the code at the failing input.  Starting from
cluster c1 whose only member is devA, `add_member(c1, devC)` succeeds and
leaves 2 devices assigned to c1, but caches `member_count = 3` (the member
query already sees the just-added device and the code still adds 1);
`remove_member(c1, devC)` then succeeds and leaves 1 device assigned, but
caches `member_count = 0` (the query already misses the removed device and
the code still subtracts 1). -/
theorem member_count_cache_off_by_one :
    (add_member dbC9 "c1" "devC" 5).1.success = true ∧
    (dbC9Add.getCluster "c1").map ClusterRow.memberCount = some 3 ∧
    (dbC9Add.devices.filter (fun d => d.clusterId == some "c1")).length = 2 ∧
    (remove_member dbC9Add "c1" "devC" 6).1.success = true ∧
    (dbC9Rem.getCluster "c1").map ClusterRow.memberCount = some 0 ∧
    (dbC9Rem.devices.filter (fun d => d.clusterId == some "c1")).length = 1 := by
  decide

/-- Claim C3: evaluation of the code at the failing input.  Cluster c1 holds
checkpoints ck1 (sequence 1, created at 5) and ck2 (sequence 2, created at
6); restoring with the explicit id ck1 — a checkpoint that exists for the
cluster — fails with `Checkpoint not found`, because the code only compares
the requested id against the single most recently created checkpoint.
Restoring with the id ck2 or with no id returns ck2's data. -/
theorem restore_from_checkpoint_older_id_not_found :
    (∃ ck ∈ ckHist2.checkpoints, ck.id = "ck1" ∧ ck.clusterId = "c1" ∧
      ck.sequenceNumber = 1) ∧
    (restore_from_checkpoint ckHist2 "c1" (some "ck1") 7).1 =
      RestoreOutcome.failure "Checkpoint not found" ∧
    (restore_from_checkpoint ckHist2 "c1" (some "ck1") 7).2 = ckHist2 ∧
    (restore_from_checkpoint ckHist2 "c1" (some "ck2") 7).1 =
      RestoreOutcome.restored "ck2" 2 "data2" ∧
    (restore_from_checkpoint ckHist2 "c1" none 7).1 =
      RestoreOutcome.restored "ck2" 2 "data2" := by
  decide

/-- Claim C10: `cleanup_old_data` computes its cutoff as `datetime.now()`
and never uses the `days` argument, so for every value of `days` the result
is the same, every device-metric and event record with a timestamp earlier
than the moment of the call is deleted, and once all stored records are in
the past (as stored records are) both tables are emptied; the other tables
are untouched. -/
theorem cleanup_old_data_ignores_retention (s : DB) (days1 days2 now : Nat) :
    cleanup_old_data s days1 now = cleanup_old_data s days2 now ∧
    (∀ m ∈ s.metrics, m.timestamp < now →
      m ∉ (cleanup_old_data s days1 now).metrics) ∧
    (∀ e ∈ s.events, e.timestamp < now →
      e ∉ (cleanup_old_data s days1 now).events) ∧
    ((∀ m ∈ s.metrics, m.timestamp < now) →
      (cleanup_old_data s days1 now).metrics = []) ∧
    ((∀ e ∈ s.events, e.timestamp < now) →
      (cleanup_old_data s days1 now).events = []) ∧
    (cleanup_old_data s days1 now).devices = s.devices ∧
    (cleanup_old_data s days1 now).clusters = s.clusters ∧
    (cleanup_old_data s days1 now).checkpoints = s.checkpoints := by
  refine ⟨rfl, ?_, ?_, ?_, ?_, rfl, rfl, rfl⟩
  · intro m _ hlt hmem
    have h := List.of_mem_filter hmem
    simp only [Bool.not_eq_true', decide_eq_false_iff_not] at h
    exact h hlt
  · intro e _ hlt hmem
    have h := List.of_mem_filter hmem
    simp only [Bool.not_eq_true', decide_eq_false_iff_not] at h
    exact h hlt
  · intro h
    apply List.filter_eq_nil_iff.mpr
    intro m hm
    simp [h m hm]
  · intro h
    apply List.filter_eq_nil_iff.mpr
    intro e he
    simp [h e he]

/-- Witness for C10 on a database holding one past metric and one past
event: a 30-day and a 365-day retention give the identical result, and both
tables end up empty. -/
theorem cleanup_old_data_ignores_retention_witness :
    cleanup_old_data dbOld 30 10 = cleanup_old_data dbOld 365 10 ∧
    (cleanup_old_data dbOld 30 10).metrics = [] ∧
    (cleanup_old_data dbOld 30 10).events = [] :=
  ⟨(cleanup_old_data_ignores_retention dbOld 30 365 10).1,
   (cleanup_old_data_ignores_retention dbOld 30 365 10).2.2.2.1 (by decide),
   (cleanup_old_data_ignores_retention dbOld 30 365 10).2.2.2.2.1 (by decide)⟩

/-- A row strictly later than everything in the accumulator is inserted at
the front by the descending insertion step. -/
theorem insertByTimeDesc_front (c : CheckpointRow) (acc : List CheckpointRow)
    (h : ∀ x ∈ acc, x.createdAt < c.createdAt) :
    insertByTimeDesc c acc = c :: acc := by
  cases acc with
  | nil => rfl
  | cons x xs =>
    have hx := h x (List.mem_cons_self _ _)
    simp only [insertByTimeDesc, if_neg (Nat.not_le.mpr hx)]

/-- Folding the descending insertion over rows whose creation times strictly
increase reverses the list: every new row lands at the front. -/
theorem foldl_insertByTimeDesc (l : List CheckpointRow) :
    ∀ acc : List CheckpointRow,
    (l.map CheckpointRow.createdAt).Pairwise (· < ·) →
    (∀ a ∈ acc, ∀ b ∈ l, a.createdAt < b.createdAt) →
    l.foldl (fun acc c => insertByTimeDesc c acc) acc = l.reverse ++ acc := by
  induction l with
  | nil =>
    intro acc _ _
    simp
  | cons c cs ih =>
    intro acc hpair hacc
    simp only [List.map_cons] at hpair
    obtain ⟨hhead, htail⟩ := List.pairwise_cons.mp hpair
    have hbound : ∀ a ∈ c :: acc, ∀ b ∈ cs, a.createdAt < b.createdAt := by
      intro a ha b hb
      rcases List.mem_cons.mp ha with rfl | ha2
      · exact hhead _ (List.mem_map_of_mem _ hb)
      · exact hacc a ha2 b (List.mem_cons_of_mem _ hb)
    rw [List.foldl_cons,
      insertByTimeDesc_front c acc
        (fun x hx => hacc x hx c (List.mem_cons_self _ _)),
      ih (c :: acc) htail hbound]
    simp

/-- On a history whose creation times strictly increase in rowid order,
`ORDER BY created_at DESC` returns exactly the reversed history. -/
theorem sortByTimeDesc_of_increasing (l : List CheckpointRow)
    (h : (l.map CheckpointRow.createdAt).Pairwise (· < ·)) :
    sortByTimeDesc l = l.reverse := by
  have h2 := foldl_insertByTimeDesc l [] h
    (fun a ha => absurd ha (List.not_mem_nil a))
  simpa [sortByTimeDesc] using h2

/-- `LIMIT 1` keeps exactly the head of the ordered result. -/
theorem head?_take_one {α : Type} (l : List α) : (l.take 1).head? = l.head? := by
  cases l <;> rfl

/-- The head of the cluster's checkpoint history is the head of the sorted
cluster rows. -/
theorem getCheckpointHistory_head (s : DB) (cid : String) :
    (s.getCheckpointHistory (some cid) 1).head? =
      (sortByTimeDesc (cidCheckpoints s cid)).head? := by
  unfold DB.getCheckpointHistory cidCheckpoints
  exact head?_take_one _

/-- The rowid-last entry of the expected sequence list `1..(k+1)` is `k+1`. -/
theorem seqUpTo_getLast? (k : Nat) :
    (seqUpTo (k + 1)).getLast? = some (k + 1) := by
  simp [seqUpTo, List.getLast?_concat]

/-- Every entry of `seqUpTo k` is at most `k`. -/
theorem seqUpTo_le (k : Nat) : ∀ i ∈ seqUpTo k, i ≤ k := by
  induction k with
  | zero =>
    intro i hi
    simp [seqUpTo] at hi
  | succ n ih =>
    intro i hi
    simp only [seqUpTo, List.mem_append, List.mem_singleton] at hi
    rcases hi with hi | rfl
    · exact le_trans (ih i hi) (Nat.le_succ n)
    · exact le_refl _

/-- The expected sequence list `1..k` is strictly increasing. -/
theorem seqUpTo_pairwise (k : Nat) : (seqUpTo k).Pairwise (· < ·) := by
  induction k with
  | zero => simp [seqUpTo]
  | succ n ih =>
    simp only [seqUpTo]
    apply List.pairwise_append.mpr
    refine ⟨ih, List.pairwise_singleton _ _, ?_⟩
    intro a ha b hb
    simp only [List.mem_singleton] at hb
    subst hb
    exact Nat.lt_succ_of_le (seqUpTo_le n a ha)

/-- When the cluster's checkpoints carry sequences `1..k` in rowid order and
their creation times strictly increase, `create_checkpoint`'s next-sequence
computation (most recently created row plus one) yields `k + 1`. -/
theorem nextSeq_eq (s : DB) (cid : String) (k : Nat)
    (hseq : checkpointSeqs s cid = seqUpTo k)
    (htime : ((cidCheckpoints s cid).map CheckpointRow.createdAt).Pairwise
      (· < ·)) :
    nextSeq s cid = k + 1 := by
  unfold nextSeq
  rw [getCheckpointHistory_head, sortByTimeDesc_of_increasing _ htime,
    List.head?_reverse]
  cases k with
  | zero =>
    have hnil : cidCheckpoints s cid = [] := by
      have h2 : (cidCheckpoints s cid).map CheckpointRow.sequenceNumber = [] :=
        hseq
      exact List.map_eq_nil_iff.mp h2
    rw [hnil]
    rfl
  | succ n =>
    have hlast : ((cidCheckpoints s cid).getLast?).map
        CheckpointRow.sequenceNumber = some (n + 1) := by
      rw [← List.getLast?_map,
        show (cidCheckpoints s cid).map CheckpointRow.sequenceNumber =
          seqUpTo (n + 1) from hseq]
      exact seqUpTo_getLast? n
    cases hg : (cidCheckpoints s cid).getLast? with
    | none =>
      rw [hg] at hlast
      cases hlast
    | some row =>
      rw [hg] at hlast
      simp only [Option.map_some'] at hlast
      have hrow : row.sequenceNumber = n + 1 := Option.some.inj hlast
      simp [hrow]

/-- Effect of one successful `create_checkpoint` whose fresh uuid collides
with no stored checkpoint id: the new row is appended with sequence
`nextSeq`, and the returned dictionary reports that sequence. -/
theorem create_checkpoint_checkpoints (s : DB) (cid ckid data : String)
    (now : Nat) (hfresh : ∀ ck ∈ s.checkpoints, ck.id ≠ ckid) :
    (create_checkpoint s cid ckid data now).2.checkpoints =
      s.checkpoints ++ [⟨ckid, cid, data, nextSeq s cid, now⟩] ∧
    (create_checkpoint s cid ckid data now).1 =
      ⟨ckid, nextSeq s cid, "success"⟩ := by
  constructor
  · show (s.saveCheckpoint ckid cid data (nextSeq s cid) now).checkpoints = _
    unfold DB.saveCheckpoint
    show s.checkpoints.filter _ ++ _ = _
    congr 1
    apply List.filter_eq_self.mpr
    intro a ha
    simpa using hfresh a ha
  · rfl

/-- Appending one row of the cluster to the checkpoints table appends it to
the cluster's filtered rows. -/
theorem cidCheckpoints_of_append (s2 s : DB) (cid : String)
    (row : CheckpointRow) (h : s2.checkpoints = s.checkpoints ++ [row])
    (hrow : row.clusterId = cid) :
    cidCheckpoints s2 cid = cidCheckpoints s cid ++ [row] := by
  unfold cidCheckpoints
  rw [h, List.filter_append]
  congr 1
  simp [hrow]

/-- Invariant-carrying induction for `runCheckpoints`: from a state whose
checkpoints for the cluster carry sequences `1..k` in rowid order with
strictly increasing creation times all earlier than every pending call, a
run of calls with fresh pairwise-distinct uuids at strictly increasing
instants extends the sequence list to `1..(k + number of calls)`. -/
theorem runCheckpoints_aux (cid : String)
    (calls : List (String × String × Nat)) :
    ∀ (s : DB) (k : Nat),
    checkpointSeqs s cid = seqUpTo k →
    ((cidCheckpoints s cid).map CheckpointRow.createdAt).Pairwise (· < ·) →
    (∀ t ∈ (cidCheckpoints s cid).map CheckpointRow.createdAt,
      ∀ c ∈ calls, t < c.2.2) →
    (∀ c ∈ calls, ∀ ck ∈ s.checkpoints, ck.id ≠ c.1) →
    (calls.map (fun c => c.1)).Nodup →
    (calls.map (fun c => c.2.2)).Pairwise (· < ·) →
    checkpointSeqs (runCheckpoints cid s calls) cid =
      seqUpTo (k + calls.length) := by
  induction calls with
  | nil =>
    intro s k hseq _ _ _ _ _
    simpa using hseq
  | cons c cs ih =>
    intro s k hseq htimeinc hbound hfresh hnodup htimes
    obtain ⟨ckid, data, t⟩ := c
    have hnext : nextSeq s cid = k + 1 := nextSeq_eq s cid k hseq htimeinc
    have hckfresh : ∀ ck ∈ s.checkpoints, ck.id ≠ ckid :=
      fun ck hck => hfresh _ (List.mem_cons_self _ _) ck hck
    obtain ⟨hcks, _hres⟩ :=
      create_checkpoint_checkpoints s cid ckid data t hckfresh
    have hcid2 : cidCheckpoints (create_checkpoint s cid ckid data t).2 cid =
        cidCheckpoints s cid ++ [⟨ckid, cid, data, nextSeq s cid, t⟩] :=
      cidCheckpoints_of_append _ s cid _ hcks rfl
    have hseq2 : checkpointSeqs (create_checkpoint s cid ckid data t).2 cid =
        seqUpTo (k + 1) := by
      show (cidCheckpoints (create_checkpoint s cid ckid data t).2 cid).map
        CheckpointRow.sequenceNumber = _
      rw [hcid2, List.map_append,
        show (cidCheckpoints s cid).map CheckpointRow.sequenceNumber =
          seqUpTo k from hseq]
      show seqUpTo k ++ [nextSeq s cid] = _
      rw [hnext]
      rfl
    have htime2 : ((cidCheckpoints (create_checkpoint s cid ckid data t).2
        cid).map CheckpointRow.createdAt).Pairwise (· < ·) := by
      rw [hcid2, List.map_append]
      apply List.pairwise_append.mpr
      refine ⟨htimeinc, List.pairwise_singleton _ _, ?_⟩
      intro a ha b hb
      simp only [List.map_cons, List.map_nil, List.mem_singleton] at hb
      subst hb
      exact hbound a ha _ (List.mem_cons_self _ _)
    have hbound2 : ∀ t2 ∈ (cidCheckpoints
        (create_checkpoint s cid ckid data t).2 cid).map
        CheckpointRow.createdAt, ∀ c2 ∈ cs, t2 < c2.2.2 := by
      intro t2 ht2 c2 hc2
      rw [hcid2, List.map_append] at ht2
      rcases List.mem_append.mp ht2 with h1 | h2
      · exact hbound t2 h1 c2 (List.mem_cons_of_mem _ hc2)
      · simp only [List.map_cons, List.map_nil, List.mem_singleton] at h2
        subst h2
        simp only [List.map_cons] at htimes
        exact (List.pairwise_cons.mp htimes).1 _ (List.mem_map_of_mem _ hc2)
    have hfresh2 : ∀ c2 ∈ cs,
        ∀ ck ∈ (create_checkpoint s cid ckid data t).2.checkpoints,
        ck.id ≠ c2.1 := by
      intro c2 hc2 ck hck
      rw [hcks] at hck
      rcases List.mem_append.mp hck with h1 | h2
      · exact hfresh c2 (List.mem_cons_of_mem _ hc2) ck h1
      · simp only [List.mem_singleton] at h2
        subst h2
        simp only [List.map_cons] at hnodup
        have hnotin := (List.nodup_cons.mp hnodup).1
        intro heq
        have heq2 : ckid = c2.1 := heq
        exact hnotin (by rw [heq2]; exact List.mem_map_of_mem _ hc2)
    have hnodup2 : (cs.map (fun c => c.1)).Nodup := by
      simp only [List.map_cons] at hnodup
      exact (List.nodup_cons.mp hnodup).2
    have htimes2 : (cs.map (fun c => c.2.2)).Pairwise (· < ·) := by
      simp only [List.map_cons] at htimes
      exact (List.pairwise_cons.mp htimes).2
    have hrun := ih (create_checkpoint s cid ckid data t).2 (k + 1) hseq2
      htime2 hbound2 hfresh2 hnodup2 htimes2
    show checkpointSeqs (runCheckpoints cid
      (create_checkpoint s cid ckid data t).2 cs) cid =
      seqUpTo (k + (cs.length + 1))
    rw [hrun]
    congr 1
    omega

/-- Claim C2, counterexample: checkpoints ck1 and ck2 of cluster c1 are both
created within the same one-second `created_at` instant 5 and receive
sequences 1 and 2; the next successful call (at instant 6) orders the
history by `created_at` only, reads ck1's sequence, and assigns sequence 2
again — successive successful `create_checkpoint` calls for the cluster
repeat a sequence number instead of increasing strictly. -/
theorem create_checkpoint_repeats_seq_cex :
    (create_checkpoint ckHist1 "c1" "ck2" "data2" 5).1.sequenceNumber = 2 ∧
    (create_checkpoint ckSame2 "c1" "ck3" "data3" 6).1.sequenceNumber = 2 ∧
    checkpointSeqs (create_checkpoint ckSame2 "c1" "ck3" "data3" 6).2 "c1" =
      [1, 2, 2] := by
  decide

/-- Claim C2, amended: for a cluster that starts with no checkpoints, a run
of successful `create_checkpoint` calls whose creation instants strictly
increase (no two calls within the same one-second `created_at` granularity)
with fresh distinct uuids yields exactly the sequence numbers `1, 2, ..., n`
— each new checkpoint's sequence is the previous one's plus 1, starting at 1
and strictly increasing with no repeats.  A retried failed write re-derives
the sequence from the durably stored rows, which the state-passing model
captures; but two checkpoints sharing one `created_at` second void the
guarantee (see the counterexample). -/
theorem create_checkpoint_seqs_increasing (s : DB) (cid : String)
    (calls : List (String × String × Nat))
    (h0 : cidCheckpoints s cid = [])
    (hfresh : ∀ c ∈ calls, ∀ ck ∈ s.checkpoints, ck.id ≠ c.1)
    (hnodup : (calls.map (fun c => c.1)).Nodup)
    (htimes : (calls.map (fun c => c.2.2)).Pairwise (· < ·)) :
    checkpointSeqs (runCheckpoints cid s calls) cid = seqUpTo calls.length ∧
    (checkpointSeqs (runCheckpoints cid s calls) cid).Pairwise (· < ·) := by
  have h1 : checkpointSeqs s cid = seqUpTo 0 := by
    show (cidCheckpoints s cid).map CheckpointRow.sequenceNumber = _
    rw [h0]
    rfl
  have h2 := runCheckpoints_aux cid calls s 0 h1
    (by rw [h0]; exact List.Pairwise.nil)
    (by rw [h0]; intro t ht; exact absurd ht (List.not_mem_nil t))
    hfresh hnodup htimes
  rw [Nat.zero_add] at h2
  refine ⟨h2, ?_⟩
  rw [h2]
  exact seqUpTo_pairwise _

/-- Witness for the amended C2: two checkpoints created at the distinct
instants 5 and 7 on the empty database receive sequences 1 and 2, strictly
increasing. -/
theorem create_checkpoint_seqs_increasing_witness :
    checkpointSeqs (runCheckpoints "c1" emptyDB
      [("ck1", "data1", 5), ("ck2", "data2", 7)]) "c1" = [1, 2] ∧
    (checkpointSeqs (runCheckpoints "c1" emptyDB
      [("ck1", "data1", 5), ("ck2", "data2", 7)]) "c1").Pairwise (· < ·) :=
  create_checkpoint_seqs_increasing emptyDB "c1"
    [("ck1", "data1", 5), ("ck2", "data2", 7)]
    (by decide) (by decide) (by decide) (by decide)
